import Mathlib

/-!
Shallow embedding of the Polymer ethers.js plugin
(`src/polymer-ethers-plugin.js`, in its two shipped wire variants:
the transaction/receipt-shaped variant using `receipt_requestProof` /
`receipt_queryProof`, and the log-shaped variant using `log_requestProof` /
`log_queryProof`).  Every definition below is translated from the JavaScript
source; JavaScript truthiness (`!x`, `x || d`, `x ? a : b`) is made explicit
through the `jsTruthy...` / `jsOrStr` helpers, `undefined`/`null` through
`Option`, and thrown `Error`s through `Except` / explicit outcome types whose
constructors record the error-taxonomy category of the spec and whose payloads
record the dynamic data interpolated into the thrown message.
-/

namespace Polymer

/-- Error taxonomy of the plugin.  Each constructor corresponds to one family
of `throw new Error(...)` sites in the source; the payload is the dynamic part
of the thrown message. -/
inductive PolymerError where
  | invalidArgument (msg : String)
  | transport (msg : String)
  | remote (msg : String)
  | eventNotFound (msg : String)
  deriving DecidableEq

/-- JavaScript truthiness of an optional number (`undefined` and `0` are
falsy). -/
def jsTruthyInt : Option Int → Bool
  | none => false
  | some v => if v = 0 then false else true

/-- JavaScript truthiness of an optional string (`undefined`, `null` and `""`
are falsy). -/
def jsTruthyStr : Option String → Bool
  | none => false
  | some s => if s = "" then false else true

/-- JavaScript `x || d` for an optional string `x`: the default is taken when
`x` is `undefined`/`null` or the empty string (both falsy). -/
def jsOrStr (x : Option String) (d : String) : String :=
  match x with
  | none => d
  | some s => if s = "" then d else s

/-! ## Poll-Until-Complete engine (`wait`, identical in both variants)

```js
async function wait(config, jobId, maxAttempts, interval) {
  for (let attempt = 1; attempt <= maxAttempts; attempt++) {
    const result = await queryProofStatus(config, jobId);
    if (result.status === "complete") { return result; }
    if (result.status === "error") {
      throw new Error(`Proof generation failed: ${result.failureReason || "Unknown error"}`);
    }
    if (attempt < maxAttempts) {
      await new Promise((resolve) => setTimeout(resolve, interval));
    }
  }
  throw new Error(`Proof generation timed out after ${maxAttempts} attempts`);
}
```

The remote service is abstracted as a trace `responses : Nat → QueryResponse`
giving, for each attempt number, either the decoded `result` object returned
by `queryProofStatus` or the error it raised (note that `queryProofStatus`
catches only to log and then re-throws, so from `wait`'s point of view the
call either yields a result or raises).  The run is recorded as a `WaitTrace`:
the outcome, the number of status queries performed, and the list of sleep
durations in order. -/

/-- The decoded `result` object of a status query: its `status` discriminator,
its `failureReason` field, and an opaque payload (`proof`); absent fields are
`none`. -/
structure StatusResult where
  status : Option String
  failureReason : Option String
  proof : Option String
  deriving DecidableEq

/-- What one `queryProofStatus` call inside the polling loop does: return a
decoded result, or raise an error (transport / remote). -/
inductive QueryResponse where
  | ok (r : StatusResult)
  | raise (e : PolymerError)
  deriving DecidableEq

/-- Outcome of the polling loop: the single success exit, the thrown
proof-generation-failed error (payload: the interpolated reason), the thrown
timeout error (payload: the interpolated attempt count), or an error raised
by a status query propagating out of the loop. -/
inductive WaitOutcome where
  | success (r : StatusResult)
  | proofFailed (reason : String)
  | timedOut (attempts : Nat)
  | raised (e : PolymerError)
  deriving DecidableEq

/-- Observable trace of one `wait` run: outcome, number of status queries
performed, and the sleep durations in order. -/
structure WaitTrace where
  outcome : WaitOutcome
  queries : Nat
  sleeps : List Nat
  deriving DecidableEq

/-- Body of the `for (let attempt = 1; attempt <= maxAttempts; attempt++)`
loop of `wait`.  `remaining` counts the loop iterations still allowed; in
every call reachable from `waitRun` the invariant
`remaining = maxAttempts + 1 - attempt` holds, so `remaining = 0` is exactly
the loop exit (`attempt > maxAttempts`), which throws the timeout error. -/
def waitGo (responses : Nat → QueryResponse) (interval maxAttempts : Nat) :
    Nat → Nat → WaitTrace
  | _, 0 => ⟨.timedOut maxAttempts, 0, []⟩
  | attempt, remaining + 1 =>
    match responses attempt with
    | .raise e => ⟨.raised e, 1, []⟩
    | .ok r =>
      if r.status = some "complete" then
        ⟨.success r, 1, []⟩
      else if r.status = some "error" then
        ⟨.proofFailed (jsOrStr r.failureReason "Unknown error"), 1, []⟩
      else if attempt < maxAttempts then
        let rest := waitGo responses interval maxAttempts (attempt + 1) remaining
        ⟨rest.outcome, rest.queries + 1, interval :: rest.sleeps⟩
      else
        ⟨.timedOut maxAttempts, 1, []⟩

/-- The `wait` polling loop, started at attempt 1 with the full retry
budget. -/
def waitRun (responses : Nat → QueryResponse) (interval maxAttempts : Nat) :
    WaitTrace :=
  waitGo responses interval maxAttempts 1 maxAttempts

/-- A response the loop treats as still pending: a decoded result whose
`status` is neither `"complete"` nor `"error"` (any other value, including a
missing `status`, falls through both terminal checks). -/
def isPendingResp : QueryResponse → Bool
  | .ok r =>
    if r.status = some "complete" then false
    else if r.status = some "error" then false
    else true
  | .raise _ => false

theorem waitGo_skips_pending (responses : Nat → QueryResponse)
    (interval maxAttempts : Nat) :
    ∀ j attempt, 1 ≤ attempt → attempt + j ≤ maxAttempts →
    (∀ i, attempt ≤ i → i < attempt + j → isPendingResp (responses i) = true) →
    waitGo responses interval maxAttempts attempt (maxAttempts + 1 - attempt) =
      { outcome := (waitGo responses interval maxAttempts (attempt + j)
          (maxAttempts + 1 - (attempt + j))).outcome,
        queries := (waitGo responses interval maxAttempts (attempt + j)
          (maxAttempts + 1 - (attempt + j))).queries + j,
        sleeps := List.replicate j interval ++
          (waitGo responses interval maxAttempts (attempt + j)
            (maxAttempts + 1 - (attempt + j))).sleeps } := by
  intro j
  induction j with
  | zero => intro attempt _ _ _; simp
  | succ j ih =>
    intro attempt h1 hle hp
    have hlt : attempt < maxAttempts := by omega
    have hrem : maxAttempts + 1 - attempt = (maxAttempts - attempt) + 1 := by
      omega
    rw [hrem]
    have hpend := hp attempt (le_refl attempt) (by omega)
    cases hq : responses attempt with
    | raise e => rw [hq] at hpend; simp [isPendingResp] at hpend
    | ok r =>
      rw [hq] at hpend
      have hc : ¬ r.status = some "complete" := by
        intro h; simp [isPendingResp, h] at hpend
      have he : ¬ r.status = some "error" := by
        intro h; simp [isPendingResp, h] at hpend
      have hrem2 : maxAttempts - attempt = maxAttempts + 1 - (attempt + 1) := by
        omega
      have ihx := ih (attempt + 1) (by omega) (by omega)
        (fun i hi1 hi2 => hp i (by omega) (by omega))
      simp only [waitGo, hq, hc, he, hlt, if_false, if_true, ite_true,
        ite_false, if_pos, if_neg]
      rw [hrem2, ihx]
      have harith : attempt + 1 + j = attempt + (j + 1) := by omega
      rw [harith]
      simp [List.replicate_succ]
      omega

/-- C1: polling with a positive budget `N` over a trace that is pending at
every attempt performs exactly `N` status queries, sleeps for `interval`
exactly between consecutive attempts (`N - 1` sleeps, none after the final
attempt), and exits by throwing the timeout error reporting the attempt
count `N`. -/
theorem wait_pending_exhausts_budget (responses : Nat → QueryResponse)
    (interval N : Nat) (hN : 1 ≤ N)
    (hp : ∀ k, 1 ≤ k → k ≤ N → isPendingResp (responses k) = true) :
    waitRun responses interval N =
      { outcome := .timedOut N, queries := N,
        sleeps := List.replicate (N - 1) interval } := by
  have hfirst : N + 1 - 1 = N := by omega
  have hstep := waitGo_skips_pending responses interval N (N - 1) 1 (le_refl 1)
    (by omega) (fun i hi1 hi2 => hp i hi1 (by omega))
  have hone : 1 + (N - 1) = N := by omega
  rw [hone] at hstep
  have hlast : waitGo responses interval N N (N + 1 - N) =
      ⟨.timedOut N, 1, []⟩ := by
    have h1 : N + 1 - N = 0 + 1 := by omega
    rw [h1]
    have hpend := hp N hN (le_refl N)
    cases hq : responses N with
    | raise e => rw [hq] at hpend; simp [isPendingResp] at hpend
    | ok r =>
      rw [hq] at hpend
      have hc : ¬ r.status = some "complete" := by
        intro h; simp [isPendingResp, h] at hpend
      have he : ¬ r.status = some "error" := by
        intro h; simp [isPendingResp, h] at hpend
      simp [waitGo, hq, hc, he]
  rw [hfirst] at hstep
  rw [waitRun, hstep, hlast]
  simp
  omega

/-- Witness for `wait_pending_exhausts_budget`: budget 2, a constantly
pending trace, interval 7 — two queries, one sleep, timeout after 2. -/
theorem wait_pending_exhausts_budget_witness :
    waitRun (fun _ => .ok ⟨some "pending", none, none⟩) 7 2 =
      { outcome := .timedOut 2, queries := 2,
        sleeps := List.replicate 1 7 } :=
  wait_pending_exhausts_budget (fun _ => .ok ⟨some "pending", none, none⟩)
    7 2 (by decide) (fun _ _ _ => rfl)

/-- C5: if the trace is pending on attempts `1..k-1` and the status query
returns a result with status `"complete"` on attempt `k ≤ N`, the polling
loop performs exactly `k` queries and exactly `k - 1` sleeps of `interval`
milliseconds, and returns the `k`-th response's result object as the
payload. -/
theorem wait_complete_returns_payload (responses : Nat → QueryResponse)
    (interval N k : Nat) (r : StatusResult) (hk1 : 1 ≤ k) (hkN : k ≤ N)
    (hp : ∀ i, 1 ≤ i → i < k → isPendingResp (responses i) = true)
    (hr : responses k = .ok r) (hst : r.status = some "complete") :
    waitRun responses interval N =
      { outcome := .success r, queries := k,
        sleeps := List.replicate (k - 1) interval } := by
  have hfirst : N + 1 - 1 = N := by omega
  have hstep := waitGo_skips_pending responses interval N (k - 1) 1 (le_refl 1)
    (by omega) (fun i hi1 hi2 => hp i hi1 (by omega))
  have hone : 1 + (k - 1) = k := by omega
  rw [hone, hfirst] at hstep
  have hlast : waitGo responses interval N k (N + 1 - k) =
      ⟨.success r, 1, []⟩ := by
    have h1 : N + 1 - k = (N - k) + 1 := by omega
    rw [h1]
    simp [waitGo, hr, hst]
  rw [waitRun, hstep, hlast]
  simp
  omega

/-- Witness for `wait_complete_returns_payload`: the scenario of the spec —
budget 3, interval 10, trace pending, pending, complete — performs exactly
3 queries and 2 sleeps of 10 ms and returns the third response's result. -/
theorem wait_complete_returns_payload_witness :
    waitRun
      (fun a => if a < 3 then .ok ⟨some "pending", none, none⟩
        else .ok ⟨some "complete", none, some "0xproof"⟩) 10 3 =
      { outcome := .success ⟨some "complete", none, some "0xproof"⟩,
        queries := 3, sleeps := List.replicate 2 10 } :=
  wait_complete_returns_payload
    (fun a => if a < 3 then .ok ⟨some "pending", none, none⟩
      else .ok ⟨some "complete", none, some "0xproof"⟩)
    10 3 3 ⟨some "complete", none, some "0xproof"⟩ (by decide) (by decide)
    (fun i hi1 hi2 => by interval_cases i <;> rfl) (by rfl) rfl

/-- C4 counterexample: the claim says the `ProofFailed` error carries the
reported reason, defaulting to `"Unknown error"` only when the
`failureReason` field is absent.  But the source computes the reason with
`result.failureReason || "Unknown error"`, which also replaces a *present but
empty* reported reason: on the response `{status:"error", failureReason:""}`
at attempt 1 the loop throws `Proof generation failed: Unknown error`, not a
`ProofFailed` carrying the reported reason `""`. -/
theorem wait_empty_failure_reason_counterexample :
    waitRun (fun _ => .ok ⟨some "error", some "", none⟩) 10 3 =
      { outcome := .proofFailed "Unknown error", queries := 1, sleeps := [] }
    ∧ (waitRun (fun _ => .ok ⟨some "error", some "", none⟩) 10 3).outcome ≠
        .proofFailed "" := by
  constructor
  · rfl
  · decide

/-- C4 (amended): if the trace is pending on attempts `1..k-1` and the status
query returns a result with status discriminator `"error"` on attempt
`k < N`, the polling loop performs exactly `k` queries, no more, and throws
the proof-generation-failed error carrying the reported reason, where the
reason defaults to `"Unknown error"` when the `failureReason` field is absent
or empty (falsy); any status value other than `"complete"` and `"error"` is
treated as pending (that is the definition of `isPendingResp`). -/
theorem wait_failed_status_aborts (responses : Nat → QueryResponse)
    (interval N k : Nat) (r : StatusResult) (hk1 : 1 ≤ k) (hkN : k < N)
    (hp : ∀ i, 1 ≤ i → i < k → isPendingResp (responses i) = true)
    (hr : responses k = .ok r) (hst : r.status = some "error") :
    waitRun responses interval N =
      { outcome := .proofFailed (jsOrStr r.failureReason "Unknown error"),
        queries := k, sleeps := List.replicate (k - 1) interval }
    ∧ (∀ s, r.failureReason = some s → s ≠ "" →
        jsOrStr r.failureReason "Unknown error" = s)
    ∧ (r.failureReason = none →
        jsOrStr r.failureReason "Unknown error" = "Unknown error") := by
  refine ⟨?_, ?_, ?_⟩
  · have hfirst : N + 1 - 1 = N := by omega
    have hstep := waitGo_skips_pending responses interval N (k - 1) 1
      (le_refl 1) (by omega) (fun i hi1 hi2 => hp i hi1 (by omega))
    have hone : 1 + (k - 1) = k := by omega
    rw [hone, hfirst] at hstep
    have hc : ¬ r.status = some "complete" := by simp [hst]
    have hlast : waitGo responses interval N k (N + 1 - k) =
        ⟨.proofFailed (jsOrStr r.failureReason "Unknown error"), 1, []⟩ := by
      have h1 : N + 1 - k = (N - k) + 1 := by omega
      rw [h1]
      simp [waitGo, hr, hst, hc]
    rw [waitRun, hstep, hlast]
    simp
    omega
  · intro s hs hne
    simp [jsOrStr, hs, hne]
  · intro hs
    simp [jsOrStr, hs]

/-- Witness for `wait_failed_status_aborts`: budget 4, pending at attempt 1,
status `"error"` with reason `"out of gas"` at attempt 2 — exactly 2 queries,
one sleep, `ProofFailed` carrying the reported reason. -/
theorem wait_failed_status_aborts_witness :
    waitRun
      (fun a => if a < 2 then .ok ⟨some "pending", none, none⟩
        else .ok ⟨some "error", some "out of gas", none⟩) 10 4 =
      { outcome := .proofFailed "out of gas", queries := 2,
        sleeps := List.replicate 1 10 } :=
  ((wait_failed_status_aborts
    (fun a => if a < 2 then .ok ⟨some "pending", none, none⟩
      else .ok ⟨some "error", some "out of gas", none⟩)
    10 4 2 ⟨some "error", some "out of gas", none⟩ (by decide) (by decide)
    (fun i hi1 hi2 => by interval_cases i; rfl) (by rfl) rfl).1)

/-- C2 counterexample: the claim says an error raised by a status query at
attempt `k < maxAttempts` is swallowed and the loop proceeds to attempt
`k + 1`.  But `wait` has no try/catch around `queryProofStatus` (which itself
catches only to log and re-throws), so the error propagates to the caller: on
a trace whose first status query raises a transport error, with a budget of
2 attempts, exactly one query happens and the raised error is the outcome —
the loop never reaches attempt 2. -/
theorem wait_error_propagation_counterexample :
    waitRun (fun _ => .raise (.transport "HTTP error! status: 500")) 10 2 =
      { outcome := .raised (.transport "HTTP error! status: 500"),
        queries := 1, sleeps := [] }
    ∧ (waitRun (fun _ => .raise (.transport "HTTP error! status: 500"))
        10 2).queries ≠ 2 := by
  constructor
  · rfl
  · decide

/-- C2 (amended): an error raised by the status query at attempt `k` (after
pending attempts `1..k-1`) propagates unchanged to the caller of `wait`,
aborting the polling loop after exactly `k` queries; only the `"error"`
terminal status is turned into a `ProofFailed`, and nothing is retried after
a raised error. -/
theorem wait_query_error_propagates (responses : Nat → QueryResponse)
    (interval N k : Nat) (e : PolymerError) (hk1 : 1 ≤ k) (hkN : k ≤ N)
    (hp : ∀ i, 1 ≤ i → i < k → isPendingResp (responses i) = true)
    (hr : responses k = .raise e) :
    waitRun responses interval N =
      { outcome := .raised e, queries := k,
        sleeps := List.replicate (k - 1) interval } := by
  have hfirst : N + 1 - 1 = N := by omega
  have hstep := waitGo_skips_pending responses interval N (k - 1) 1 (le_refl 1)
    (by omega) (fun i hi1 hi2 => hp i hi1 (by omega))
  have hone : 1 + (k - 1) = k := by omega
  rw [hone, hfirst] at hstep
  have hlast : waitGo responses interval N k (N + 1 - k) =
      ⟨.raised e, 1, []⟩ := by
    have h1 : N + 1 - k = (N - k) + 1 := by omega
    rw [h1]
    simp [waitGo, hr]
  rw [waitRun, hstep, hlast]
  simp
  omega

/-- Witness for `wait_query_error_propagates`: budget 3, pending at attempt
1, remote error raised at attempt 2 — exactly 2 queries, one sleep, and the
remote error as the outcome. -/
theorem wait_query_error_propagates_witness :
    waitRun
      (fun a => if a < 2 then .ok ⟨some "pending", none, none⟩
        else .raise (.remote "Polymer API error: \x7b\x7d")) 10 3 =
      { outcome := .raised (.remote "Polymer API error: \x7b\x7d"),
        queries := 2, sleeps := List.replicate 1 10 } :=
  wait_query_error_propagates
    (fun a => if a < 2 then .ok ⟨some "pending", none, none⟩
      else .raise (.remote "Polymer API error: \x7b\x7d"))
    10 3 2 (.remote "Polymer API error: \x7b\x7d") (by decide) (by decide)
    (fun i hi1 hi2 => by interval_cases i; rfl) (by rfl)

/-! ## Remote Proof Service Client (`requestProof` / `queryProofStatus`)

Both functions perform one `fetch(config.apiUrl, {...})` with a JSON-RPC 2.0
body, check `response.ok`, parse the body, check `data.error`, and return
`data.result`.  JSON values are modelled by `Jv`, the serialisation
`JSON.stringify` by `jsonStringify`, and the single HTTP round trip by a
`net : RpcRequest → HttpResponse` collaborator.  Each `...Run` function also
records the list of requests actually handed to `net`, so "no network call is
made" is the statement `sent = []`. -/

/-- A JSON value (the shape of `data.error`, `data.result` and the positional
parameters). -/
inductive Jv where
  | null
  | bool (b : Bool)
  | num (n : Int)
  | str (s : String)
  | arr (xs : List Jv)
  | obj (fields : List (String × Jv))

/-- JavaScript truthiness of a JSON value (`null`, `false`, `0` and `""` are
falsy; arrays and objects are always truthy). -/
def jvTruthy : Jv → Bool
  | .null => false
  | .bool b => b
  | .num n => if n = 0 then false else true
  | .str s => if s = "" then false else true
  | .arr _ => true
  | .obj _ => true

/-- String-body escaping of `JSON.stringify` for the quote and backslash
characters. -/
def jsonEscape (s : String) : String :=
  s.foldl
    (fun acc c =>
      acc ++ (if c = '\\' then "\\\\"
        else if c = '"' then "\\\"" else String.singleton c)) ""

mutual

/-- Model of `JSON.stringify` on JSON values. -/
def jsonStringify : Jv → String
  | .null => "null"
  | .bool true => "true"
  | .bool false => "false"
  | .num n => toString n
  | .str s => "\"" ++ jsonEscape s ++ "\""
  | .arr xs => "[" ++ jsonStringifyList xs ++ "]"
  | .obj fs => "\x7b" ++ jsonStringifyFields fs ++ "\x7d"

/-- Comma-separated serialisation of the elements of a JSON array. -/
def jsonStringifyList : List Jv → String
  | [] => ""
  | [x] => jsonStringify x
  | x :: y :: xs => jsonStringify x ++ "," ++ jsonStringifyList (y :: xs)

/-- Comma-separated serialisation of the fields of a JSON object. -/
def jsonStringifyFields : List (String × Jv) → String
  | [] => ""
  | [f] => "\"" ++ jsonEscape f.1 ++ "\":" ++ jsonStringify f.2
  | f :: g :: fs =>
    "\"" ++ jsonEscape f.1 ++ "\":" ++ jsonStringify f.2 ++ "," ++
      jsonStringifyFields (g :: fs)

end

/-- The parsed JSON-RPC response envelope: its `error` and `result` fields
(`none` when the field is absent). -/
structure RpcEnvelope where
  error : Option Jv
  result : Option Jv

/-- What the HTTP collaborator gives back for one `fetch`: the `ok` flag, the
numeric status, and the result of `response.json()` (`Except.error` when the
body is not JSON, carrying the parse error's message). -/
structure HttpResponse where
  ok : Bool
  status : Nat
  json : Except String RpcEnvelope

/-- Shared response handling of `requestProof` and `queryProofStatus`:

```js
if (!response.ok) { throw new Error(`HTTP error! status: ${response.status}`); }
const data = await response.json();
if (data.error) { throw new Error(`Polymer API error: ${JSON.stringify(data.error)}`); }
return data.result;
```

(the surrounding `try/catch` only logs and re-throws, so it does not change
the outcome). -/
def processRpcResponse (resp : HttpResponse) : Except PolymerError (Option Jv) :=
  if resp.ok = false then
    .error (.transport ("HTTP error! status: " ++ toString resp.status))
  else
    match resp.json with
    | .error msg => .error (.transport msg)
    | .ok data =>
      match data.error with
      | some e =>
        if jvTruthy e then
          .error (.remote ("Polymer API error: " ++ jsonStringify e))
        else .ok data.result
      | none => .ok data.result

/-- Rendering of an optional string inside a template literal:
`` `Bearer ${config.apiKey}` `` prints `null`/`undefined` as text. -/
def jsTemplateStr : Option String → String
  | none => "null"
  | some s => s

/-- One JSON-RPC request as handed to `fetch`: target URL, HTTP verb, the
three headers, and the `{jsonrpc, id, method, params}` body. -/
structure RpcRequest where
  url : String
  httpVerb : String
  authorization : String
  contentType : String
  accept : String
  jsonrpc : String
  id : Nat
  method : String
  params : List Jv

/-- The client configuration (`DEFAULT_CONFIG` merged with caller
overrides). -/
structure Config where
  apiUrl : String
  apiKey : Option String
  maxAttempts : Int
  interval : Int
  timeout : Int
  debug : Bool
  deriving DecidableEq

/-- The `DEFAULT_CONFIG` object of the source. -/
def DEFAULT_CONFIG : Config :=
  { apiUrl := "https://proof.testnet.polymer.zone"
    apiKey := none
    maxAttempts := 20
    interval := 3000
    timeout := 60000
    debug := false }

/-- The request built by `requestProof` of the transaction/receipt-shaped
variant: method `receipt_requestProof`, and
`params = targetChainId ? [srcChainId, targetChainId, blockNumber, txIndex]
: [srcChainId, blockNumber, txIndex]` (JavaScript truthiness: a supplied
target of `0` takes the 3-element branch). -/
def requestProofWireReceipt (config : Config) (srcChainId : Int)
    (targetChainId : Option Int) (blockNumber txIndex : Int) : RpcRequest :=
  { url := config.apiUrl
    httpVerb := "POST"
    authorization := "Bearer " ++ jsTemplateStr config.apiKey
    contentType := "application/json"
    accept := "application/json"
    jsonrpc := "2.0"
    id := 1
    method := "receipt_requestProof"
    params :=
      if jsTruthyInt targetChainId then
        [Jv.num srcChainId, Jv.num (targetChainId.getD 0), Jv.num blockNumber,
          Jv.num txIndex]
      else [Jv.num srcChainId, Jv.num blockNumber, Jv.num txIndex] }

/-- The request built by `requestProof` of the log-shaped variant: method
`log_requestProof` and
`params = [srcChainId, srcBlockNumber, txIndex, localLogIndex]`
unconditionally. -/
def requestProofWireLog (config : Config) (srcChainId srcBlockNumber txIndex
    localLogIndex : Int) : RpcRequest :=
  { url := config.apiUrl
    httpVerb := "POST"
    authorization := "Bearer " ++ jsTemplateStr config.apiKey
    contentType := "application/json"
    accept := "application/json"
    jsonrpc := "2.0"
    id := 1
    method := "log_requestProof"
    params := [Jv.num srcChainId, Jv.num srcBlockNumber, Jv.num txIndex,
      Jv.num localLogIndex] }

/-- Result of running a network-using operation: the requests handed to the
HTTP collaborator, in order, and the operation's outcome. -/
structure NetResult where
  sent : List RpcRequest
  outcome : Except PolymerError (Option Jv)

/-- Run of `requestProof` (receipt-shaped variant): build the one request,
`fetch` it, process the response. -/
def requestProofRunReceipt (net : RpcRequest → HttpResponse) (config : Config)
    (srcChainId : Int) (targetChainId : Option Int)
    (blockNumber txIndex : Int) : NetResult :=
  { sent := [requestProofWireReceipt config srcChainId targetChainId
      blockNumber txIndex]
    outcome := processRpcResponse (net (requestProofWireReceipt config
      srcChainId targetChainId blockNumber txIndex)) }

/-- Run of `requestProof` (log-shaped variant). -/
def requestProofRunLog (net : RpcRequest → HttpResponse) (config : Config)
    (srcChainId srcBlockNumber txIndex localLogIndex : Int) : NetResult :=
  { sent := [requestProofWireLog config srcChainId srcBlockNumber txIndex
      localLogIndex]
    outcome := processRpcResponse (net (requestProofWireLog config srcChainId
      srcBlockNumber txIndex localLogIndex)) }

/-- A concrete configuration used by the closed counterexamples and
witnesses. -/
def cfg0 : Config :=
  { apiUrl := "https://proof.testnet.polymer.zone"
    apiKey := some "key-0"
    maxAttempts := 20
    interval := 3000
    timeout := 60000
    debug := false }

/-- C7 counterexample: the method name is *not* selected by whether a target
chain is present.  Two concrete submissions, neither supplying a target
chain: the transaction/receipt-shaped variant still sends
`receipt_requestProof` (with the 3-element parameter list) while the
log-shaped variant sends `log_requestProof` — two different method names for
the same "no target chain present" condition, so target-chain presence does
not determine the method; the call-shape variant does. -/
theorem request_method_not_selected_by_target_counterexample :
    (requestProofWireReceipt cfg0 10 none 100 0).method =
        "receipt_requestProof"
    ∧ (requestProofWireReceipt cfg0 10 none 100 0).params =
        [Jv.num 10, Jv.num 100, Jv.num 0]
    ∧ (requestProofWireLog cfg0 10 100 0 0).method = "log_requestProof"
    ∧ (requestProofWireLog cfg0 10 100 0 0).params =
        [Jv.num 10, Jv.num 100, Jv.num 0, Jv.num 0]
    ∧ "receipt_requestProof" ≠ "log_requestProof" := by
  refine ⟨rfl, rfl, rfl, rfl, ?_⟩
  decide

/-- C7 (amended): `requestProof` issues a single JSON-RPC 2.0 request
(`jsonrpc = "2.0"`, `id = 1`, HTTP POST to the configured URL with the
bearer-token and JSON headers) whose method name is fixed by the call-shape
variant — `receipt_requestProof` for the transaction/receipt shape,
`log_requestProof` for the log shape — with positional parameters in the
fixed order `[sourceChainId, (targetChainId if present), blockNumber,
transactionIndex]` resp. `[sourceChainId, blockNumber, transactionIndex,
logIndex]` (for a positive target chain id as required of
`ProofRequestParams`, presence coincides with truthiness); it returns the
envelope's `result` field, fails with a transport error on a non-success
HTTP status, and fails with a remote error carrying the `error` field
serialized verbatim when the envelope contains a (truthy) one. -/
theorem request_proof_wire_spec :
    (∀ config srcChainId targetChainId blockNumber txIndex,
      (∀ t, targetChainId = some t → 0 < t) →
      requestProofWireReceipt config srcChainId targetChainId blockNumber
          txIndex =
        { url := config.apiUrl
          httpVerb := "POST"
          authorization := "Bearer " ++ jsTemplateStr config.apiKey
          contentType := "application/json"
          accept := "application/json"
          jsonrpc := "2.0"
          id := 1
          method := "receipt_requestProof"
          params :=
            match targetChainId with
            | some t => [Jv.num srcChainId, Jv.num t, Jv.num blockNumber,
                Jv.num txIndex]
            | none => [Jv.num srcChainId, Jv.num blockNumber,
                Jv.num txIndex] })
    ∧ (∀ config srcChainId srcBlockNumber txIndex localLogIndex,
      requestProofWireLog config srcChainId srcBlockNumber txIndex
          localLogIndex =
        { url := config.apiUrl
          httpVerb := "POST"
          authorization := "Bearer " ++ jsTemplateStr config.apiKey
          contentType := "application/json"
          accept := "application/json"
          jsonrpc := "2.0"
          id := 1
          method := "log_requestProof"
          params := [Jv.num srcChainId, Jv.num srcBlockNumber, Jv.num txIndex,
            Jv.num localLogIndex] })
    ∧ (∀ net config srcChainId targetChainId blockNumber txIndex,
      requestProofRunReceipt net config srcChainId targetChainId blockNumber
          txIndex =
        { sent := [requestProofWireReceipt config srcChainId targetChainId
            blockNumber txIndex]
          outcome := processRpcResponse (net (requestProofWireReceipt config
            srcChainId targetChainId blockNumber txIndex)) })
    ∧ (∀ net config srcChainId srcBlockNumber txIndex localLogIndex,
      requestProofRunLog net config srcChainId srcBlockNumber txIndex
          localLogIndex =
        { sent := [requestProofWireLog config srcChainId srcBlockNumber
            txIndex localLogIndex]
          outcome := processRpcResponse (net (requestProofWireLog config
            srcChainId srcBlockNumber txIndex localLogIndex)) })
    ∧ (∀ status json, processRpcResponse ⟨false, status, json⟩ =
        .error (.transport ("HTTP error! status: " ++ toString status)))
    ∧ (∀ status env, env.error = none →
        processRpcResponse ⟨true, status, .ok env⟩ = .ok env.result)
    ∧ (∀ status env e, env.error = some e → jvTruthy e = true →
        processRpcResponse ⟨true, status, .ok env⟩ =
          .error (.remote ("Polymer API error: " ++ jsonStringify e))) := by
  refine ⟨?_, ?_, ?_, ?_, ?_, ?_, ?_⟩
  · intro config srcChainId targetChainId blockNumber txIndex hpos
    cases targetChainId with
    | none => rfl
    | some t =>
      have ht : ¬ t = 0 := by
        have := hpos t rfl
        omega
      simp [requestProofWireReceipt, jsTruthyInt, ht]
  · intro config srcChainId srcBlockNumber txIndex localLogIndex; rfl
  · intro net config srcChainId targetChainId blockNumber txIndex; rfl
  · intro net config srcChainId srcBlockNumber txIndex localLogIndex; rfl
  · intro status json; rfl
  · intro status env he
    simp [processRpcResponse, he]
  · intro status env e he ht
    simp [processRpcResponse, he, ht]

/-- Witness for `request_proof_wire_spec`: a concrete submission with a
(positive) target chain carries the 4-element parameter list; a concrete 500
response yields the transport error; a concrete envelope with an `error`
field yields the remote error with the field serialized verbatim; a concrete
success envelope returns its `result`. -/
theorem request_proof_wire_spec_witness :
    (requestProofWireReceipt cfg0 10 (some 84532) 100 7).params =
        [Jv.num 10, Jv.num 84532, Jv.num 100, Jv.num 7]
    ∧ processRpcResponse ⟨false, 500, .ok ⟨none, none⟩⟩ =
        .error (.transport ("HTTP error! status: " ++ toString 500))
    ∧ processRpcResponse ⟨true, 200, .ok ⟨none, some (Jv.str "job-1")⟩⟩ =
        .ok (some (Jv.str "job-1"))
    ∧ processRpcResponse
          ⟨true, 200, .ok ⟨some (Jv.obj [("code", Jv.num (-32000))]), none⟩⟩ =
        .error (.remote ("Polymer API error: " ++
          jsonStringify (Jv.obj [("code", Jv.num (-32000))]))) := by
  refine ⟨?_, ?_, ?_, ?_⟩
  · have h := (request_proof_wire_spec.1 cfg0 10 (some 84532) 100 7
      (by intro t ht; cases ht; omega))
    rw [h]
  · exact request_proof_wire_spec.2.2.2.2.1 500 (.ok ⟨none, none⟩)
  · exact request_proof_wire_spec.2.2.2.2.2.1 200 ⟨none, some (Jv.str "job-1")⟩
      rfl
  · exact request_proof_wire_spec.2.2.2.2.2.2 200
      ⟨some (Jv.obj [("code", Jv.num (-32000))]), none⟩
      (Jv.obj [("code", Jv.num (-32000))]) rfl rfl

/-! ## Status-query entry points

`queryProofStatus(config, jobId)` (module level) builds its request and
fetches unconditionally — it contains no job-id validation.  The prototype
methods `polymerProofStatus(jobId)` installed on `TransactionResponse` and
`TransactionReceipt` first check `if (!jobId) throw new Error("Job ID is
required")` and only then delegate to `queryProofStatus`.  The standalone
`ethers.polymer.queryProofStatus` is a direct delegation to the module-level
function, with no check.  The job handle is an `Option String` (`none`
models a missing argument; truthiness makes `none` and `some ""` falsy). -/

/-- Rendering of the job id inside `params: [jobId]` after
`JSON.stringify` (`undefined` inside an array serialises as `null`). -/
def jvOfJobId : Option String → Jv
  | none => Jv.null
  | some s => Jv.str s

/-- The request built by the module-level `queryProofStatus` of the
transaction/receipt-shaped variant: method `receipt_queryProof`, the job
handle as the sole parameter (the log-shaped variant is identical except for
the method name `log_queryProof`). -/
def queryProofWireReceipt (config : Config) (jobId : Option String) :
    RpcRequest :=
  { url := config.apiUrl
    httpVerb := "POST"
    authorization := "Bearer " ++ jsTemplateStr config.apiKey
    contentType := "application/json"
    accept := "application/json"
    jsonrpc := "2.0"
    id := 1
    method := "receipt_queryProof"
    params := [jvOfJobId jobId] }

/-- Run of the module-level `queryProofStatus` (also the body of the
standalone `ethers.polymer.queryProofStatus`, which delegates directly): one
request is always sent; there is no job-id validation. -/
def queryProofStatusRun (net : RpcRequest → HttpResponse) (config : Config)
    (jobId : Option String) : NetResult :=
  { sent := [queryProofWireReceipt config jobId]
    outcome := processRpcResponse (net (queryProofWireReceipt config jobId)) }

/-- Run of the prototype methods `polymerProofStatus` (identical on
`TransactionResponse` and `TransactionReceipt`): `if (!jobId) throw`, then
delegate to `queryProofStatus`. -/
def polymerProofStatusRun (net : RpcRequest → HttpResponse) (config : Config)
    (jobId : Option String) : NetResult :=
  if jsTruthyStr jobId = false then
    { sent := [], outcome := .error (.invalidArgument "Job ID is required") }
  else queryProofStatusRun net config jobId

/-- A fixed HTTP collaborator for the closed counterexamples and witnesses:
every request succeeds with `{"result": "job-x"}`. -/
def netOk : RpcRequest → HttpResponse :=
  fun _ => ⟨true, 200, .ok ⟨none, some (Jv.str "job-x")⟩⟩

/-- C8 counterexample: the standalone `ethers.polymer.queryProofStatus` does
*not* fail fast on an empty job handle — called with `""` it issues the
status-query network request (one request sent, carrying `""` as the sole
parameter) and returns whatever the service answers, instead of failing with
an `InvalidArgument` error before any network call. -/
theorem standalone_query_status_no_validation_counterexample :
    (queryProofStatusRun netOk cfg0 (some "")).sent =
        [queryProofWireReceipt cfg0 (some "")]
    ∧ (queryProofStatusRun netOk cfg0 (some "")).sent.length = 1
    ∧ (queryProofStatusRun netOk cfg0 (some "")).outcome =
        .ok (some (Jv.str "job-x")) :=
  ⟨rfl, rfl, rfl⟩

/-- C8 (amended): the prototype `polymerProofStatus` methods fail fast with
the `InvalidArgument` error `Job ID is required` on an empty or missing job
handle, before any network call (`sent = []`), and delegate unchanged to the
status query on a non-empty handle; the standalone
`ethers.polymer.queryProofStatus`, by contrast, performs no validation and
always issues exactly the one status-query request, whatever the handle. -/
theorem proof_status_entry_points_spec (net : RpcRequest → HttpResponse)
    (config : Config) (jobId : Option String) :
    (jsTruthyStr jobId = false →
      polymerProofStatusRun net config jobId =
        { sent := [],
          outcome := .error (.invalidArgument "Job ID is required") })
    ∧ (jsTruthyStr jobId = true →
      polymerProofStatusRun net config jobId =
        queryProofStatusRun net config jobId)
    ∧ (queryProofStatusRun net config jobId).sent =
        [queryProofWireReceipt config jobId] := by
  refine ⟨?_, ?_, rfl⟩
  · intro h; simp [polymerProofStatusRun, h]
  · intro h; simp [polymerProofStatusRun, h]

/-- Witness for `proof_status_entry_points_spec`: with the missing handle the
prototype method fails fast with no request sent, and with the handle
`"job-7"` it delegates to the status query. -/
theorem proof_status_entry_points_spec_witness :
    polymerProofStatusRun netOk cfg0 none =
      { sent := [],
        outcome := .error (.invalidArgument "Job ID is required") }
    ∧ polymerProofStatusRun netOk cfg0 (some "job-7") =
        queryProofStatusRun netOk cfg0 (some "job-7") :=
  ⟨(proof_status_entry_points_spec netOk cfg0 none).1 rfl,
    (proof_status_entry_points_spec netOk cfg0 (some "job-7")).2.1 rfl⟩

/-! ## Parameter resolution of `polymerProof` (transaction/receipt-shaped
variant)

`TransactionResponse.prototype.polymerProof` awaits the receipt, resolves the
source chain id from `this.chainId || (await provider.getNetwork()).chainId`,
validates `options.targetChainId`, and only then calls `requestProof`.
`TransactionReceipt.prototype.polymerProof` is the same except the chain id
comes solely from the provider.  Both are modelled up to the `requestProof`
request they build: an `Except.error` means the operation throws before the
single `fetch` ever receives a request, i.e. before any network call. -/

/-- The fields of the awaited receipt that the pipeline reads. -/
structure ReceiptData where
  blockNumber : Int
  index : Int
  deriving DecidableEq

/-- A `TransactionResponse`-like input: its own `chainId` field, the chain id
obtainable from its provider's network (when a provider is attached), and
the receipt `this.wait()` resolves to (when available). -/
structure TxResponseLike where
  chainId : Option Int
  providerChainId : Option Int
  receipt : Option ReceiptData

/-- A `TransactionReceipt`-like input: whether a provider is attached, the
provider's network chain id, and the receipt's own block number and
index-within-block. -/
structure TxReceiptLike where
  hasProvider : Bool
  providerChainId : Option Int
  blockNumber : Int
  index : Int

/-- `this.chainId || (this.provider && (await this.provider.getNetwork())).chainId`:
take the transaction's own chain id when truthy, else the provider's. -/
def resolveTxChainId (tx : TxResponseLike) : Option Int :=
  if jsTruthyInt tx.chainId then tx.chainId else tx.providerChainId

/-- Validation-and-request phase of
`TransactionResponse.prototype.polymerProof`, in source order: receipt
availability, chain-id resolution, `targetChainId` required, `targetChainId`
must differ from the source chain, then the `requestProof` request is
built. -/
def txPolymerProofRequest (config : Config) (tx : TxResponseLike)
    (targetChainId : Option Int) : Except PolymerError RpcRequest :=
  match tx.receipt with
  | none => .error (.invalidArgument "Transaction receipt not available")
  | some receipt =>
    if jsTruthyInt (resolveTxChainId tx) = false then
      .error (.invalidArgument "Chain ID not found in transaction or provider")
    else if jsTruthyInt targetChainId = false then
      .error (.invalidArgument "targetChainId is required for proof generation")
    else if targetChainId.getD 0 = (resolveTxChainId tx).getD 0 then
      .error (.invalidArgument
        "Target chain ID must be different from source chain ID")
    else
      .ok (requestProofWireReceipt config ((resolveTxChainId tx).getD 0)
        targetChainId receipt.blockNumber receipt.index)

/-- Validation-and-request phase of
`TransactionReceipt.prototype.polymerProof` (same checks; the chain id comes
from the provider only). -/
def receiptPolymerProofRequest (config : Config) (rc : TxReceiptLike)
    (targetChainId : Option Int) : Except PolymerError RpcRequest :=
  if rc.hasProvider = false then
    .error (.invalidArgument "Provider not available in transaction receipt")
  else if jsTruthyInt rc.providerChainId = false then
    .error (.invalidArgument "Chain ID not found in provider")
  else if jsTruthyInt targetChainId = false then
    .error (.invalidArgument "targetChainId is required for proof generation")
  else if targetChainId.getD 0 = rc.providerChainId.getD 0 then
    .error (.invalidArgument
      "Target chain ID must be different from source chain ID")
  else
    .ok (requestProofWireReceipt config (rc.providerChainId.getD 0)
      targetChainId rc.blockNumber rc.index)

/-- C3: on either call shape, supplying a `targetChainId` numerically equal
to the resolved source chain id makes `polymerProof` fail with the
`InvalidArgument` error `Target chain ID must be different from source chain
ID` during the validation phase — no `requestProof` request is produced, so
no network call is made.  (The source chain id is resolvable only when it is
truthy, hence nonzero, so the equal target is also truthy and reaches this
check rather than the `targetChainId is required` one.) -/
theorem target_chain_equals_source_rejected (config : Config)
    (tx : TxResponseLike) (rc : TxReceiptLike) (s : Int)
    (hrcpt : tx.receipt.isSome = true) (htx : resolveTxChainId tx = some s)
    (hs : s ≠ 0) (hprov : rc.hasProvider = true)
    (hrc : rc.providerChainId = some s) :
    txPolymerProofRequest config tx (some s) =
      .error (.invalidArgument
        "Target chain ID must be different from source chain ID")
    ∧ receiptPolymerProofRequest config rc (some s) =
      .error (.invalidArgument
        "Target chain ID must be different from source chain ID") := by
  constructor
  · cases hr : tx.receipt with
    | none => rw [hr] at hrcpt; simp at hrcpt
    | some receipt =>
      simp [txPolymerProofRequest, hr, htx, jsTruthyInt, hs]
  · simp [receiptPolymerProofRequest, hprov, hrc, jsTruthyInt, hs]

/-- Witness for `target_chain_equals_source_rejected`: a transaction on
chain 10 and a receipt on chain 10, each asked for a proof targeting chain
10, both fail with the must-differ error. -/
theorem target_chain_equals_source_rejected_witness :
    txPolymerProofRequest cfg0 ⟨some 10, none, some ⟨100, 0⟩⟩ (some 10) =
      .error (.invalidArgument
        "Target chain ID must be different from source chain ID")
    ∧ receiptPolymerProofRequest cfg0 ⟨true, some 10, 100, 0⟩ (some 10) =
      .error (.invalidArgument
        "Target chain ID must be different from source chain ID") :=
  target_chain_equals_source_rejected cfg0 ⟨some 10, none, some ⟨100, 0⟩⟩
    ⟨true, some 10, 100, 0⟩ 10 rfl rfl (by decide) rfl rfl

/-! ## Initialization (`addPolymerToEthers`)

`const polymerConfig = { ...DEFAULT_CONFIG, ...config };` merges the caller's
overrides field-by-field over the defaults; then
`if (!polymerConfig.apiKey) throw new Error("Polymer API key is required")`.
On success the function installs `polymerProof` on the two prototypes only
when not already present, and unconditionally (re)assigns the two
`polymerProofStatus` prototype methods and the `ethers.polymer` helper
object.  Each installed member closes over `polymerConfig`; the state model
records, per member, the configuration the installed closure uses (`none`
when the member is not installed). -/

/-- The caller-supplied override object: `none` for a field the caller did
not pass. -/
structure ConfigOverrides where
  apiUrl : Option String
  apiKey : Option String
  maxAttempts : Option Int
  interval : Option Int
  timeout : Option Int
  debug : Option Bool
  deriving DecidableEq

/-- The object spread `{ ...DEFAULT_CONFIG, ...config }`: each supplied field
overrides the default. -/
def mergeConfig (o : ConfigOverrides) : Config :=
  { apiUrl := o.apiUrl.getD DEFAULT_CONFIG.apiUrl
    apiKey := match o.apiKey with
      | some k => some k
      | none => DEFAULT_CONFIG.apiKey
    maxAttempts := o.maxAttempts.getD DEFAULT_CONFIG.maxAttempts
    interval := o.interval.getD DEFAULT_CONFIG.interval
    timeout := o.timeout.getD DEFAULT_CONFIG.timeout
    debug := o.debug.getD DEFAULT_CONFIG.debug }

/-- The configuration-construction phase of `addPolymerToEthers`: merge, then
reject a falsy (missing or empty) `apiKey`. -/
def addPolymerConfig (o : ConfigOverrides) : Except String Config :=
  if jsTruthyStr (mergeConfig o).apiKey = false then
    .error "Polymer API key is required"
  else .ok (mergeConfig o)

/-- The plugin-visible members of the `ethers` object: for each member that
`addPolymerToEthers` can install, the configuration captured by the
installed closure (`none` when not installed). -/
structure EthersState where
  txPolymerProof : Option Config
  receiptPolymerProof : Option Config
  txPolymerProofStatus : Option Config
  receiptPolymerProofStatus : Option Config
  polymer : Option Config
  deriving DecidableEq

/-- A fresh `ethers` object, before any plugin call. -/
def emptyEthers : EthersState := ⟨none, none, none, none, none⟩

/-- One call of `addPolymerToEthers`: build (and validate) the configuration;
on success install `polymerProof` on each prototype only if not already
present (`!ethers.TransactionResponse.prototype.polymerProof` guard, and the
analogous guard on `TransactionReceipt`), and unconditionally assign both
`polymerProofStatus` prototype methods and the `ethers.polymer` object. -/
def addPolymerToEthers (st : EthersState) (o : ConfigOverrides) :
    Except String EthersState :=
  match addPolymerConfig o with
  | .error e => .error e
  | .ok cfg =>
    .ok { txPolymerProof :=
            match st.txPolymerProof with
            | none => some cfg
            | some c => some c
          receiptPolymerProof :=
            match st.receiptPolymerProof with
            | none => some cfg
            | some c => some c
          txPolymerProofStatus := some cfg
          receiptPolymerProofStatus := some cfg
          polymer := some cfg }

/-- C9: initialization fails exactly when the merged `apiKey` is missing or
empty; when it succeeds the resulting configuration is the defaults — the
hosted testnet endpoint, `maxAttempts = 20`, `interval = 3000` ms,
`timeout = 60000` ms, `debug = false` — overridden field-by-field by the
caller-supplied values.  (The configuration is a value closed over by the
installed members and passed to every operation; no operation of the
embedding produces a modified configuration, matching the source, which only
ever reads `polymerConfig` after construction.) -/
theorem add_polymer_config_spec (o : ConfigOverrides) :
    DEFAULT_CONFIG =
      { apiUrl := "https://proof.testnet.polymer.zone", apiKey := none,
        maxAttempts := 20, interval := 3000, timeout := 60000,
        debug := false }
    ∧ ((o.apiKey = none ∨ o.apiKey = some "") →
        addPolymerConfig o = .error "Polymer API key is required")
    ∧ (∀ k, o.apiKey = some k → k ≠ "" →
        addPolymerConfig o =
          .ok { apiUrl := o.apiUrl.getD "https://proof.testnet.polymer.zone"
                apiKey := some k
                maxAttempts := o.maxAttempts.getD 20
                interval := o.interval.getD 3000
                timeout := o.timeout.getD 60000
                debug := o.debug.getD false }) := by
  refine ⟨rfl, ?_, ?_⟩
  · intro h
    rcases h with h | h <;>
      simp [addPolymerConfig, mergeConfig, jsTruthyStr, h, DEFAULT_CONFIG]
  · intro k hk hne
    simp [addPolymerConfig, mergeConfig, jsTruthyStr, hk, hne, DEFAULT_CONFIG]

/-- Witness for `add_polymer_config_spec`: no key fails; a key plus a custom
interval yields the defaults with exactly those two fields overridden. -/
theorem add_polymer_config_spec_witness :
    addPolymerConfig ⟨none, none, none, none, none, none⟩ =
      .error "Polymer API key is required"
    ∧ addPolymerConfig ⟨none, some "key-0", none, some 500, none, none⟩ =
      .ok { apiUrl := "https://proof.testnet.polymer.zone"
            apiKey := some "key-0"
            maxAttempts := 20
            interval := 500
            timeout := 60000
            debug := false } :=
  ⟨(add_polymer_config_spec ⟨none, none, none, none, none, none⟩).2.1
      (Or.inl rfl),
    (add_polymer_config_spec ⟨none, some "key-0", none, some 500, none,
      none⟩).2.2 "key-0" rfl (by decide)⟩

/-- C10: a second `addPolymerToEthers` call on the same `ethers` object never
replaces an installed `polymerProof` (the guard
`!...prototype.polymerProof` skips assignment, so the first call's
configuration keeps governing it), while the `polymerProofStatus` prototype
methods and the `ethers.polymer` helper are unconditionally reassigned to
close over the newly built configuration; consequently, after two calls with
configurations that merge differently, `polymerProof` and
`polymerProofStatus` observe different configurations. -/
theorem add_polymer_twice_config_split (o1 o2 : ConfigOverrides)
    (st1 st2 : EthersState)
    (h1 : addPolymerToEthers emptyEthers o1 = .ok st1)
    (h2 : addPolymerToEthers st1 o2 = .ok st2) :
    st2.txPolymerProof = some (mergeConfig o1)
    ∧ st2.receiptPolymerProof = some (mergeConfig o1)
    ∧ st2.txPolymerProofStatus = some (mergeConfig o2)
    ∧ st2.receiptPolymerProofStatus = some (mergeConfig o2)
    ∧ st2.polymer = some (mergeConfig o2)
    ∧ (mergeConfig o1 ≠ mergeConfig o2 →
        st2.txPolymerProof ≠ st2.txPolymerProofStatus) := by
  have hc1 : addPolymerConfig o1 = .ok (mergeConfig o1) := by
    unfold addPolymerToEthers at h1
    cases hx : addPolymerConfig o1 with
    | error e => rw [hx] at h1; simp at h1
    | ok cfg =>
      have : cfg = mergeConfig o1 := by
        unfold addPolymerConfig at hx
        by_cases hb : jsTruthyStr (mergeConfig o1).apiKey = false
        · simp [hb] at hx
        · simp [hb] at hx; exact hx.symm
      rw [this]
  have hc2 : addPolymerConfig o2 = .ok (mergeConfig o2) := by
    unfold addPolymerToEthers at h2
    cases hx : addPolymerConfig o2 with
    | error e => rw [hx] at h2; simp at h2
    | ok cfg =>
      have : cfg = mergeConfig o2 := by
        unfold addPolymerConfig at hx
        by_cases hb : jsTruthyStr (mergeConfig o2).apiKey = false
        · simp [hb] at hx
        · simp [hb] at hx; exact hx.symm
      rw [this]
  unfold addPolymerToEthers at h1 h2
  rw [hc1] at h1
  rw [hc2] at h2
  simp [emptyEthers] at h1
  rw [← h1] at h2
  simp at h2
  rw [← h2]
  refine ⟨rfl, rfl, rfl, rfl, rfl, ?_⟩
  intro hne
  simp
  intro hx
  exact hne hx

/-- Override object of the first installation in the two-call scenario
(interval 500). -/
def ovA : ConfigOverrides := ⟨none, some "key-0", none, some 500, none, none⟩

/-- Override object of the second installation in the two-call scenario
(interval 900). -/
def ovB : ConfigOverrides := ⟨none, some "key-0", none, some 900, none, none⟩

/-- The `ethers` state after installing `ovA` on a fresh object. -/
def stA : EthersState :=
  ⟨some (mergeConfig ovA), some (mergeConfig ovA), some (mergeConfig ovA),
    some (mergeConfig ovA), some (mergeConfig ovA)⟩

/-- The `ethers` state after additionally installing `ovB`. -/
def stAB : EthersState :=
  ⟨some (mergeConfig ovA), some (mergeConfig ovA), some (mergeConfig ovB),
    some (mergeConfig ovB), some (mergeConfig ovB)⟩

/-- Witness for `add_polymer_twice_config_split`: install with interval 500,
then again with interval 900 — `polymerProof` keeps the interval-500
configuration while `polymerProofStatus` and `ethers.polymer` observe the
interval-900 one, and the two observed configurations differ. -/
theorem add_polymer_twice_config_split_witness :
    stAB.txPolymerProof = some (mergeConfig ovA)
    ∧ stAB.receiptPolymerProof = some (mergeConfig ovA)
    ∧ stAB.txPolymerProofStatus = some (mergeConfig ovB)
    ∧ stAB.receiptPolymerProofStatus = some (mergeConfig ovB)
    ∧ stAB.polymer = some (mergeConfig ovB)
    ∧ stAB.txPolymerProof ≠ stAB.txPolymerProofStatus := by
  have h := add_polymer_twice_config_split ovA ovB stA stAB rfl rfl
  exact ⟨h.1, h.2.1, h.2.2.1, h.2.2.2.1, h.2.2.2.2.1,
    h.2.2.2.2.2 (by decide)⟩

/-! ## Log-index resolution (log-shaped variant of `polymerProof`)

```js
const { ..., eventSignature, logIndex: providedLogIndex } = options;
if (!eventSignature && typeof providedLogIndex !== "number") {
  throw new Error("eventSignature or logIndex is required");
}
if (providedLogIndex !== undefined && providedLogIndex < 0) {
  throw new Error("logIndex must be non-negative");
}
let localLogIndex = providedLogIndex;
if (typeof providedLogIndex !== "number") {
  const eventTopic = ethers.id(eventSignature);
  const foundIndex = this.logs.findIndex((log) => log.topics[0] === eventTopic);
  if (foundIndex === -1) {
    throw new Error(`Event ${eventSignature} not found in transaction receipt`);
  }
  localLogIndex = foundIndex;
}
```

`ethers.id` (the canonical event-topic hash, keccak-256 of the UTF-8
signature string) is an external collaborator and is abstracted as an
arbitrary function `ethersId : String → String`.  `Array.prototype.findIndex`
(first index satisfying the predicate, `-1`, modelled as `none`, when no
element does) is `findIndexOpt`; `log.topics[0]` on an empty topic list is
`undefined`, which is `===`-distinct from every string, so the predicate is
`topics.head? = some eventTopic`. -/

/-- One receipt log entry, exposing its topic list (the first topic is the
event-signature hash). -/
structure LogEntry where
  topics : List String
  deriving DecidableEq

/-- Model of `Array.prototype.findIndex`: the index of the first element
satisfying `p`, with `none` standing for JavaScript's `-1`. -/
def findIndexOpt (p : α → Bool) : List α → Option Nat
  | [] => none
  | a :: as =>
    if p a then some 0 else (findIndexOpt p as).map (fun n => n + 1)

theorem findIndexOpt_eq_none_iff (p : α → Bool) (l : List α) :
    findIndexOpt p l = none ↔ ∀ a ∈ l, p a = false := by
  induction l with
  | nil => simp [findIndexOpt]
  | cons a as ih =>
    by_cases hpa : p a = true
    · simp [findIndexOpt, hpa]
    · simp only [Bool.not_eq_true] at hpa
      simp [findIndexOpt, hpa, ih]

theorem findIndexOpt_eq_some_iff (p : α → Bool) (l : List α) (n : Nat) :
    findIndexOpt p l = some n ↔
      ((∃ a, l[n]? = some a ∧ p a = true) ∧
        ∀ m, m < n → ∃ b, l[m]? = some b ∧ p b = false) := by
  induction l generalizing n with
  | nil => simp [findIndexOpt]
  | cons a as ih =>
    by_cases hpa : p a = true
    · simp only [findIndexOpt, hpa, if_true]
      cases n with
      | zero => simp [hpa]
      | succ k =>
        simp only [List.getElem?_cons_succ]
        constructor
        · intro h; simp at h
        · rintro ⟨-, hall⟩
          rcases hall 0 (Nat.succ_pos k) with ⟨b, hb, hpb⟩
          simp at hb
          rw [hb] at hpa
          rw [hpa] at hpb
          simp at hpb
    · simp only [Bool.not_eq_true] at hpa
      simp only [findIndexOpt, hpa, if_false, Bool.false_eq_true]
      cases n with
      | zero =>
        constructor
        · intro h; simp at h
        · rintro ⟨⟨b, hb, hpb⟩, -⟩
          simp at hb
          rw [hb] at hpa
          rw [hpa] at hpb
          simp at hpb
      | succ k =>
        rw [show (Option.map (fun n => n + 1) (findIndexOpt p as) =
            some (k + 1)) ↔ findIndexOpt p as = some k by
          cases h : findIndexOpt p as <;> simp [h]]
        rw [ih k]
        constructor
        · rintro ⟨hex, hall⟩
          refine ⟨by simpa using hex, ?_⟩
          intro m hm
          cases m with
          | zero => exact ⟨a, by simp, hpa⟩
          | succ j =>
            rcases hall j (by omega) with ⟨b, hb, hpb⟩
            exact ⟨b, by simpa using hb, hpb⟩
        · rintro ⟨hex, hall⟩
          refine ⟨by simpa using hex, ?_⟩
          intro j hj
          rcases hall (j + 1) (by omega) with ⟨b, hb, hpb⟩
          exact ⟨b, by simpa using hb, hpb⟩

/-- The option-destructuring, validation and log-index-resolution block of the
log-shaped `polymerProof`, yielding the `localLogIndex` passed on to
`requestProof` (or the error thrown).  `providedLogIndex = none` models an
options object whose `logIndex` is not a number (absent/undefined). -/
def resolveLogIndex (ethersId : String → String) (logs : List LogEntry)
    (eventSignature : Option String) (providedLogIndex : Option Int) :
    Except PolymerError Int :=
  if jsTruthyStr eventSignature = false ∧ providedLogIndex = none then
    .error (.invalidArgument "eventSignature or logIndex is required")
  else
    match providedLogIndex with
    | some i =>
      if i < 0 then .error (.invalidArgument "logIndex must be non-negative")
      else .ok i
    | none =>
      match findIndexOpt
          (fun lg => lg.topics.head? = some
            (ethersId (eventSignature.getD ""))) logs with
      | none => .error (.eventNotFound ("Event " ++ eventSignature.getD ""
          ++ " not found in transaction receipt"))
      | some foundIndex => .ok (Int.ofNat foundIndex)

/-- C6: with an event signature and no explicit `logIndex`, the resolution
computes the signature's canonical event-topic hash `ethersId sig` and
resolves to `n` exactly when the log at position `n` of the ordered log list
is the first one whose first topic equals that hash; it fails with the
`EventNotFound` error when no log's first topic matches; and it fails with
the `InvalidArgument` error when both the event signature and an explicit
log index are omitted. -/
theorem resolve_log_index_spec (ethersId : String → String)
    (logs : List LogEntry) (sig : String) (hs : sig ≠ "") :
    (∀ n : Nat,
      resolveLogIndex ethersId logs (some sig) none = .ok (Int.ofNat n) ↔
        ((∃ lg, logs[n]? = some lg ∧ lg.topics.head? = some (ethersId sig)) ∧
          ∀ m, m < n →
            ∃ lg, logs[m]? = some lg ∧ lg.topics.head? ≠ some (ethersId sig)))
    ∧ ((∀ lg ∈ logs, lg.topics.head? ≠ some (ethersId sig)) →
        resolveLogIndex ethersId logs (some sig) none =
          .error (.eventNotFound
            ("Event " ++ sig ++ " not found in transaction receipt")))
    ∧ resolveLogIndex ethersId logs none none =
        .error (.invalidArgument "eventSignature or logIndex is required") := by
  have htr : jsTruthyStr (some sig) = true := by simp [jsTruthyStr, hs]
  refine ⟨?_, ?_, ?_⟩
  · intro n
    rw [show resolveLogIndex ethersId logs (some sig) none =
        (match findIndexOpt
            (fun lg => lg.topics.head? = some (ethersId sig)) logs with
          | none => .error (.eventNotFound ("Event " ++ sig
              ++ " not found in transaction receipt"))
          | some foundIndex => .ok (Int.ofNat foundIndex)) by
      simp [resolveLogIndex, htr]]
    cases hf : findIndexOpt
        (fun lg => lg.topics.head? = some (ethersId sig)) logs with
    | none =>
      rw [findIndexOpt_eq_none_iff] at hf
      simp only []
      constructor
      · intro h; cases h
      · rintro ⟨⟨lg, hlg, hhd⟩, -⟩
        have := hf lg (by rw [List.mem_iff_getElem?]; exact ⟨n, hlg⟩)
        simp [hhd] at this
    | some k =>
      rw [findIndexOpt_eq_some_iff] at hf
      simp only []
      constructor
      · intro h
        have hk : k = n := by
          have := congrArg (fun x => x) h
          simp at h
          omega
        rw [hk] at hf
        refine ⟨?_, ?_⟩
        · rcases hf.1 with ⟨lg, hlg, hp⟩
          exact ⟨lg, hlg, of_decide_eq_true hp⟩
        · intro m hm
          rcases hf.2 m hm with ⟨lg, hlg, hp⟩
          exact ⟨lg, hlg, of_decide_eq_false hp⟩
      · rintro ⟨⟨lg, hlg, hhd⟩, hall⟩
        have hk : k = n := by
          rcases Nat.lt_trichotomy k n with h | h | h
          · rcases hall k h with ⟨lg2, hlg2, hne⟩
            rcases hf.1 with ⟨lg3, hlg3, hp3⟩
            rw [hlg2] at hlg3
            cases hlg3
            exact absurd (of_decide_eq_true hp3) hne
          · exact h
          · rcases hf.2 n h with ⟨lg2, hlg2, hp2⟩
            rw [hlg] at hlg2
            cases hlg2
            rw [hhd] at hp2
            simp at hp2
        rw [hk]
  · intro hnone
    have hf : findIndexOpt
        (fun lg => lg.topics.head? = some (ethersId sig)) logs = none := by
      rw [findIndexOpt_eq_none_iff]
      intro lg hlg
      simp [hnone lg hlg]
    simp [resolveLogIndex, htr, hf]
  · simp [resolveLogIndex, jsTruthyStr]

/-- Witness for `resolve_log_index_spec`: a hash function sending the
signature to `"0xB"` over the log list `[{topics:["0xA"]}, {topics:["0xB"]}]`
resolves to log index 1; a hash with no matching topic fails with
`EventNotFound`; omitting both the signature and the log index fails with
`InvalidArgument`. -/
theorem resolve_log_index_spec_witness :
    resolveLogIndex (fun _ => "0xB") [⟨["0xA"]⟩, ⟨["0xB"]⟩]
        (some "Transfer(address,address,uint256)") none = .ok (Int.ofNat 1)
    ∧ resolveLogIndex (fun _ => "0xC") [⟨["0xA"]⟩, ⟨["0xB"]⟩]
        (some "Transfer(address,address,uint256)") none =
      .error (.eventNotFound
        ("Event " ++ "Transfer(address,address,uint256)"
          ++ " not found in transaction receipt"))
    ∧ resolveLogIndex (fun _ => "0xB") [⟨["0xA"]⟩, ⟨["0xB"]⟩] none none =
      .error (.invalidArgument "eventSignature or logIndex is required") := by
  refine ⟨?_, ?_, ?_⟩
  · exact ((resolve_log_index_spec (fun _ => "0xB") [⟨["0xA"]⟩, ⟨["0xB"]⟩]
      "Transfer(address,address,uint256)" (by decide)).1 1).mpr
      ⟨⟨⟨["0xB"]⟩, by decide, by decide⟩,
        fun m hm => by
          interval_cases m
          exact ⟨⟨["0xA"]⟩, by decide, by decide⟩⟩
  · exact (resolve_log_index_spec (fun _ => "0xC") [⟨["0xA"]⟩, ⟨["0xB"]⟩]
      "Transfer(address,address,uint256)" (by decide)).2.1 (by decide)
  · exact (resolve_log_index_spec (fun _ => "0xB") [⟨["0xA"]⟩, ⟨["0xB"]⟩]
      "Transfer(address,address,uint256)" (by decide)).2.2

end Polymer
